import Mathlib

/-!
Shallow embedding of the Movie-analyzer application (src/app.py).

Network calls are modelled by oracles: an LLM call either yields the
textual content of the reply (the string extracted from
choices[0].message.content) or raises (timeout, HTTP error status,
malformed body); a TMDB call yields the parsed results list or raises
one of the three exception classes the code distinguishes.

Python strings are Lean strings, with str.strip / str.lower modelled
directly over ASCII (pyStrip, pyLower).  The Python float of the plot
scorer is modelled faithfully: the decimal literal is parsed to its
exact rational value (pyFloatOfCleaned) and then rounded to the
nearest IEEE-754 binary64 value, ties to even (float64OfDec), which is
what CPython float() computes; the range test and the .1f formatting
are performed on that binary64 value, as the program does.
-/

namespace MovieApp

/-- The GENRE_MAP dict of app.py lines 20-26, as an association list in
insertion order (Python dicts preserve insertion order). -/
def GENRE_MAP : List (String × Nat) :=
  [("action", 28), ("adventure", 12), ("animation", 16), ("comedy", 35),
   ("crime", 80), ("documentary", 99), ("drama", 18), ("family", 10751),
   ("fantasy", 14), ("history", 36), ("horror", 27), ("music", 10402),
   ("mystery", 9648), ("romance", 10749), ("science fiction", 878), ("sci-fi", 878),
   ("thriller", 53), ("war", 10752), ("western", 37)]

/-- Does the character list start with the given needle? -/
def charsStartWith : List Char → List Char → Bool
  | [], _ => true
  | _ :: _, [] => false
  | a :: as, b :: bs => a == b && charsStartWith as bs

/-- Does the needle occur as a contiguous run inside the haystack? -/
def charsContain (needle : List Char) : List Char → Bool
  | [] => charsStartWith needle []
  | c :: rest => charsStartWith needle (c :: rest) || charsContain needle rest

/-- Python substring test: needle in hay. -/
def strHas (hay needle : String) : Bool :=
  charsContain needle.toList hay.toList

/-- Python str.strip() whitespace set (ASCII). -/
def pyIsSpace (c : Char) : Bool :=
  c == ' ' || c == '\t' || c == '\n' || c == '\r' || c == '\x0b' || c == '\x0c'

/-- Python str.strip(): drop leading and trailing whitespace. -/
def pyStrip (s : String) : String :=
  String.mk (((s.toList.dropWhile pyIsSpace).reverse.dropWhile pyIsSpace).reverse)

/-- Python str.lower() on one ASCII character. -/
def pyLowerChar (c : Char) : Char :=
  if 65 ≤ c.toNat && c.toNat ≤ 90 then Char.ofNat (c.toNat + 32) else c

/-- Python str.lower() (the app only handles ASCII). -/
def pyLower (s : String) : String :=
  String.mk (s.toList.map pyLowerChar)

/-- Outcome of one LLM chat-completion HTTP call: either the content
string extracted from the JSON reply, or an exception (connection
timeout, raise_for_status on an HTTP error, malformed body). -/
inductive LLMOutcome where
  | reply : String → LLMOutcome
  | raise : LLMOutcome
deriving DecidableEq

/-- app.py lines 29-75, detect_genre_from_text.  hasKey models whether
OPENROUTER_API_KEY is set.  On missing key: None (line 32).  In the try
block the reply content is stripped and lowercased (line 65) and the
first genre of GENRE_MAP occurring as a substring is returned (lines
68-70); no match returns None (line 71); any exception is caught and
returns None (lines 73-75). -/
def detect_genre_from_text (hasKey : Bool) (llm : LLMOutcome) : Option String :=
  if !hasKey then none
  else
    match llm with
    | LLMOutcome.raise => none
    | LLMOutcome.reply raw =>
      let content := pyLower (pyStrip raw)
      (GENRE_MAP.find? (fun p => strHas content p.1)).map Prod.fst

/-- app.py lines 272-287, the tab2 input handling: a non-empty user
request runs detect_genre_from_text; a truthy detected genre is
selected, otherwise the default "drama"; an empty request selects
"drama". -/
def tab2_selected_genre (hasKey : Bool) (user_request : String) (llm : LLMOutcome) : String :=
  if user_request == "" then "drama"
  else
    match detect_genre_from_text hasKey llm with
    | some g => if g == "" then "drama" else g
    | none => "drama"

/-- Value of a run of decimal digit characters, most significant first. -/
def digitsVal (l : List Char) : Nat :=
  l.foldl (fun a c => 10 * a + (c.toNat - 48)) 0

/-- Is this character one of the characters kept by the cleaning regex
of app.py line 116, a digit or a decimal point? -/
def isDigitOrDot (c : Char) : Bool :=
  c.isDigit || c == '.'

/-- The re.sub of app.py line 116: drop every character other than the
digits 0-9 and the decimal point. -/
def cleanDigits (s : String) : String :=
  String.mk (s.toList.filter isDigitOrDot)

/-- An exact decimal number mant / 10 ^ exp, the value denoted by a
decimal string of digits and at most one dot. -/
structure DecNum where
  mant : Nat
  exp : Nat
deriving DecidableEq

/-- The rational value of a DecNum. -/
def decValue (d : DecNum) : Rat :=
  (d.mant : Rat) / (10 : Rat) ^ d.exp

/-- The parsing stage of Python float(_) applied to a string of digits
and dots: the parse succeeds when the string holds at most one dot and
at least one digit (so "", "." and "1.2.3" raise ValueError, while
"7.5", "15", "1." and ".5" parse), yielding the exact decimal value of
the literal.  float64OfDec below performs the IEEE-754 rounding that
CPython float() then applies. -/
def pyFloatOfCleaned (s : String) : Option DecNum :=
  let cs := s.toList
  if (cs.filter (fun c => c == '.')).length ≤ 1
      && cs.any Char.isDigit && cs.all isDigitOrDot then
    let intPart := cs.takeWhile (fun c => !(c == '.'))
    let fracPart := (cs.dropWhile (fun c => !(c == '.'))).drop 1
    some ⟨digitsVal intPart * 10 ^ fracPart.length + digitsVal fracPart, fracPart.length⟩
  else none

/-- The closed-interval test 1 ≤ value ≤ 10 on an exact decimal value:
10^exp ≤ mant ≤ 10^(exp+1).  Used to state score ranges over DecNum. -/
def inRange (d : DecNum) : Bool :=
  10 ^ d.exp ≤ d.mant && d.mant ≤ 10 ^ (d.exp + 1)

/-- The number of tenths in a DecNum, rounded to the nearest integer
with ties to even. -/
def roundTenths (d : DecNum) : Nat :=
  let q := 10 * d.mant
  let e := 10 ^ d.exp
  let fl := q / e
  let rem := q % e
  if 2 * rem < e then fl
  else if e < 2 * rem then fl + 1
  else if fl % 2 = 0 then fl else fl + 1

/-- A decimal value rendered to one decimal place followed by "/10";
every string the .1f formatting of app.py line 121 can emit has this
form with exp = 1. -/
def fmtScore (d : DecNum) : String :=
  let n := roundTenths d
  toString (n / 10) ++ "." ++ toString (n % 10) ++ "/10"

/-- Round-half-even integer rounding of the ratio a / b (for b > 0):
the IEEE-754 round-to-nearest, ties-to-even rule. -/
def rhe (a b : Nat) : Nat :=
  let q := a / b
  let r := a % b
  if 2 * r < b then q
  else if b < 2 * r then q + 1
  else if q % 2 = 0 then q else q + 1

/-- Bit length by repeated halving, with explicit fuel (n halvings
always suffice for n). -/
def bitlenAux : Nat → Nat → Nat
  | 0, _ => 0
  | fuel + 1, n => if n = 0 then 0 else bitlenAux fuel (n / 2) + 1

/-- The bit length of a natural number (0 for 0, floor(log2 n) + 1
otherwise), the int.bit_length of CPython. -/
def bitlen (n : Nat) : Nat :=
  bitlenAux n n

/-- Decides n / den ≥ 2 ^ B by exact integer comparison. -/
def gePow2 (n den : Nat) (B : Int) : Bool :=
  if 0 ≤ B then den * 2 ^ B.toNat ≤ n else den ≤ n * 2 ^ (-B).toNat

/-- A binary64 value mant · 2 ^ exp, kept as exact integers. -/
structure Dyadic where
  m : Nat
  e : Int
deriving DecidableEq

/-- The rational value of a Dyadic. -/
def dyValue (v : Dyadic) : Rat :=
  (v.m : Rat) * (2 : Rat) ^ v.e

/-- CPython float() applied to the exact decimal value mant / 10^exp:
round to 53 significant bits, nearest, ties to even.  The significand
window [2^52, 2^53) is located from the bit lengths of numerator and
denominator and an exact comparison; the significand is then the
round-half-even of the scaled ratio.  (Exponent-range clamping of real
binary64 — overflow to infinity, subnormal precision loss — is not
modelled; it affects only values far outside [1, 10], where the range
test below fails for the clamped and the unclamped value alike.) -/
def float64OfDec (d : DecNum) : Dyadic :=
  let n := d.mant
  let den := 10 ^ d.exp
  if n = 0 then ⟨0, 0⟩
  else
    let B : Int := (bitlen n : Int) - (bitlen den : Int)
    let e : Int := if gePow2 n den B then B - 52 else B - 53
    let m := if 0 ≤ e then rhe n (den * 2 ^ e.toNat) else rhe (n * 2 ^ (-e).toNat) den
    ⟨m, e⟩

/-- The range test of app.py line 120, 1 <= val <= 10, computed exactly
on the binary64 value. -/
def dyInRange (v : Dyadic) : Bool :=
  if 0 ≤ v.e then
    let p := 2 ^ v.e.toNat
    1 ≤ v.m * p && v.m * p ≤ 10
  else
    let p := 2 ^ (-v.e).toNat
    p ≤ v.m && v.m ≤ 10 * p

/-- The .1f rounding of app.py line 121 computed exactly on the
binary64 value: the number of tenths, rounded half-even as CPython
float formatting does. -/
def dyTenths (v : Dyadic) : Nat :=
  if 0 ≤ v.e then 10 * v.m * 2 ^ v.e.toNat
  else rhe (10 * v.m) (2 ^ (-v.e).toNat)

/-- A tenths count rendered as the one-decimal score string with the
"/10" suffix. -/
def fmtTenths (t : Nat) : String :=
  toString (t / 10) ++ "." ++ toString (t % 10) ++ "/10"

/-- app.py lines 113-124: the reply content is stripped (line 113), the
cleaning regex keeps digits and dots (line 116), a non-empty cleaned
string is parsed as a Python float — the exact decimal value rounded
to the nearest binary64 — and a float value in the closed interval
[1,10] is formatted to one decimal place with the "/10" suffix;
everything else yields "N/A". -/
def score_reply (raw : String) : String :=
  let content := pyStrip raw
  let cleaned := cleanDigits content
  if cleaned == "" then "N/A"
  else
    match pyFloatOfCleaned cleaned with
    | some dec =>
      let val := float64OfDec dec
      if dyInRange val then fmtTenths (dyTenths val) else "N/A"
    | none => "N/A"

/-- app.py lines 78-128, score_plot_coherence, returning the score
string together with the number of network calls made.  hasKey models
whether OPENROUTER_API_KEY is set.  Line 80 short-circuits on a missing
key, a falsy (empty) plot, or the sentinel "No summary available.",
with no network call; otherwise one POST is made and an exception is
caught into "N/A" (lines 126-128). -/
def score_plot_coherence (hasKey : Bool) (movie_title plot genre : String)
    (llm : LLMOutcome) : String × Nat :=
  if !hasKey || plot == "" || plot == "No summary available." then ("N/A", 0)
  else
    match llm with
    | LLMOutcome.raise => ("N/A", 1)
    | LLMOutcome.reply raw => (score_reply raw, 1)

/-- A JSON value as Python sees it after resp.json(), restricted to
the shapes the movie fields take: null (Python None), a string, or a
number (modelled as an exact rational). -/
inductive Jv where
  | null : Jv
  | str : String → Jv
  | num : Rat → Jv
deriving DecidableEq

/-- Python truthiness of a field value: None, "" and 0 are falsy. -/
def truthy : Jv → Bool
  | Jv.null => false
  | Jv.str s => !(s == "")
  | Jv.num q => !(q == 0)

/-- The string a Jv contributes inside an f-string (only the string
case is exercised by the code on truthy poster fragments). -/
def jvStr : Jv → String
  | Jv.null => "None"
  | Jv.str s => s
  | Jv.num q => toString q.num

/-- One raw result object of the TMDB discover reply.  Each field is
the Python dict entry: none models a missing key, some v a present key
whose JSON value is v (possibly null). -/
structure RawMovie where
  title : Option Jv
  overview : Option Jv
  release_date : Option Jv
  vote_average : Option Jv
  poster_path : Option Jv
  popularity : Option Jv
deriving DecidableEq

/-- Python movie.get(k): the value when the key is present, else None. -/
def pyGet (f : Option Jv) : Jv :=
  f.getD Jv.null

/-- Python movie.get(k, 0): the value when the key is present, else 0. -/
def pyGetD0 (f : Option Jv) : Jv :=
  f.getD (Jv.num 0)

/-- The normalized record built in app.py lines 153-161. -/
structure MovieRecord where
  title : Jv
  overview : Jv
  release_date : Jv
  vote_average : Jv
  poster_path : Option String
  popularity : Jv
deriving DecidableEq

/-- app.py lines 153-161: one raw TMDB result becomes a MovieRecord;
title, overview, release_date and vote_average are movie.get(k) (None
when missing); poster_path becomes the CDN base followed by the
fragment when the fragment is truthy, else None; popularity is
movie.get("popularity", 0). -/
def normalize (movie : RawMovie) : MovieRecord :=
  { title := pyGet movie.title
    overview := pyGet movie.overview
    release_date := pyGet movie.release_date
    vote_average := pyGet movie.vote_average
    poster_path :=
      if truthy (pyGet movie.poster_path) then
        some ("https://image.tmdb.org/t/p/w500" ++ jvStr (pyGet movie.poster_path))
      else none
    popularity := pyGetD0 movie.popularity }

/-- Outcome of one TMDB discover GET, as the except clauses of app.py
lines 164-182 classify it: the parsed results list on success, or one
of requests.exceptions.ConnectTimeout, any other
requests.exceptions.RequestException, or any other exception. -/
inductive TMDBOutcome where
  | ok : List RawMovie → TMDBOutcome
  | connectTimeout : TMDBOutcome
  | requestExn : TMDBOutcome
  | otherExn : TMDBOutcome
deriving DecidableEq

/-- app.py line 136: GENRE_MAP.get(genre.lower(), 18), defaulting to
drama for an unknown or empty genre string. -/
def tmdb_genre_id (genre : String) : Nat :=
  match GENRE_MAP.find? (fun p => p.1 == pyLower genre) with
  | some p => p.2
  | none => 18

/-- The retry loop of app.py lines 134-184.  The network is an oracle
from (genre id, attempt index) to an outcome.  Returns the movie list,
the number of network attempts made, and the list of inter-attempt
sleeps (time.sleep(2) at lines 167 and 175).  The second argument of
the recursion is the number of loop iterations remaining; exhausting it
is the fall-through return [] of line 184. -/
def tmdbAux (num : Nat) (net : Nat → Nat → TMDBOutcome) (gid : Nat) :
    Nat → Nat → List MovieRecord × Nat × List Nat
  | _, 0 => ([], 0, [])
  | attempt, r + 1 =>
    match net gid attempt with
    | TMDBOutcome.ok results => ((results.take num).map normalize, 1, [])
    | TMDBOutcome.connectTimeout =>
      if r = 0 then ([], 1, [])
      else
        let t := tmdbAux num net gid (attempt + 1) r
        (t.1, t.2.1 + 1, 2 :: t.2.2)
    | TMDBOutcome.requestExn =>
      if r = 0 then ([], 1, [])
      else
        let t := tmdbAux num net gid (attempt + 1) r
        (t.1, t.2.1 + 1, 2 :: t.2.2)
    | TMDBOutcome.otherExn => ([], 1, [])

/-- app.py lines 132-184, get_tmdb_recommendations: run the retry loop
from attempt 0 with retry_count iterations available, querying with the
genre id resolved at line 136. -/
def get_tmdb_recommendations (genre : String) (num_movies retry_count : Nat)
    (net : Nat → Nat → TMDBOutcome) : List MovieRecord × Nat × List Nat :=
  tmdbAux num_movies net (tmdb_genre_id genre) 0 retry_count

/-- The per-session score store: st.session_state keys score_1,
score_2, ... modelled as a map from index to the stored score. -/
def ScoreStore : Type := Nat → Option String

/-- app.py lines 369-373, the per-movie Get AI Score button handler:
clicking always invokes score_plot_coherence and stores its result
under score_idx, with no already-scored check.  Returns the updated
store, the number of scorer invocations, and the number of network
calls those invocations made. -/
def per_movie_click (hasKey : Bool) (genre title plot : String) (llm : LLMOutcome)
    (store : ScoreStore) (idx : Nat) : ScoreStore × Nat × Nat :=
  let r := score_plot_coherence hasKey title plot genre llm
  (fun j => if j = idx then some r.1 else store j, 1, r.2)

/-- app.py lines 400-405, the Score All Plots loop over
enumerate(movies, 1): an index whose score_idx key is already present
is skipped; otherwise score_plot_coherence runs and its result is
stored.  Movies are (title, overview) pairs; the oracle gives the LLM
outcome per index.  Returns the updated store, the number of scorer
invocations, and the number of network calls. -/
def score_all_aux (hasKey : Bool) (genre : String) (llm : Nat → LLMOutcome) :
    List (String × String) → Nat → ScoreStore → ScoreStore × Nat × Nat
  | [], _, store => (store, 0, 0)
  | (title, overview) :: rest, idx, store =>
    match store idx with
    | some _ => score_all_aux hasKey genre llm rest (idx + 1) store
    | none =>
      let r := score_plot_coherence hasKey title overview genre (llm idx)
      let store2 : ScoreStore := fun j => if j = idx then some r.1 else store j
      let t := score_all_aux hasKey genre llm rest (idx + 1) store2
      (t.1, t.2.1 + 1, t.2.2 + r.2)

/-- The Score All Plots button handler, starting at index 1. -/
def score_all_click (hasKey : Bool) (genre : String) (llm : Nat → LLMOutcome)
    (movies : List (String × String)) (store : ScoreStore) : ScoreStore × Nat × Nat :=
  score_all_aux hasKey genre llm movies 1 store

/-- The session state the app keeps in st.session_state: the
get_recommendations flag, the stored genre and movie count, and the
score_idx keys. -/
structure SessionState where
  get_recommendations : Bool
  genre : String
  num_movies : Nat
  scores : ScoreStore

/-- app.py lines 292-296, the Recommend Movies button handler (with
both keys present): sets the flag, genre and count.  The score_idx
keys are not touched. -/
def recommend_click (s : SessionState) (selected : String) (n : Nat) : SessionState :=
  { s with get_recommendations := true, genre := selected, num_movies := n }

/-- app.py lines 391-397, the Try Another Search button handler: every
score_ key is deleted and the flag cleared. -/
def try_another_click (s : SessionState) : SessionState :=
  { s with get_recommendations := false, scores := fun _ => none }

/-- app.py line 373: storing one computed score under score_idx. -/
def set_score (s : SessionState) (idx : Nat) (v : String) : SessionState :=
  { s with scores := fun j => if j = idx then some v else s.scores j }

/-- app.py lines 375-381: the score shown for display position idx is
the stored score_idx key when present. -/
def displayed_score (s : SessionState) (idx : Nat) : Option String :=
  s.scores idx

/-! ### Helper lemmas -/

/-- A successful find? splits the list at the first hit. -/
lemma find?_split {α : Type} (p : α → Bool) :
    ∀ (l : List α) (a : α), l.find? p = some a →
      ∃ l₁ l₂, l = l₁ ++ a :: l₂ ∧ p a = true ∧ ∀ b ∈ l₁, p b = false := by
  intro l
  induction l with
  | nil => intro a h; simp [List.find?] at h
  | cons x xs ih =>
    intro a h
    cases hx : p x with
    | true =>
      have hxa : x = a := by simpa [List.find?, hx] using h
      subst hxa
      exact ⟨[], xs, rfl, hx, by simp⟩
    | false =>
      have h' : xs.find? p = some a := by simpa [List.find?, hx] using h
      obtain ⟨l₁, l₂, hl, hpa, hall⟩ := ih a h'
      refine ⟨x :: l₁, l₂, by simp [hl], hpa, ?_⟩
      intro b hb
      rcases List.mem_cons.mp hb with rfl | hb
      · exact hx
      · exact hall b hb

/-- A successful detection names a genre of GENRE_MAP, every key before
it in insertion order failing the substring test. -/
lemma detect_some_split (hasKey : Bool) (raw g : String)
    (h : detect_genre_from_text hasKey (LLMOutcome.reply raw) = some g) :
    ∃ n l₁ l₂, GENRE_MAP = l₁ ++ (g, n) :: l₂ ∧
      strHas (pyLower (pyStrip raw)) g = true ∧
      ∀ p ∈ l₁, strHas (pyLower (pyStrip raw)) p.1 = false := by
  cases hasKey with
  | false => simp [detect_genre_from_text] at h
  | true =>
    have h' : (GENRE_MAP.find? (fun p => strHas (pyLower (pyStrip raw)) p.1)).map Prod.fst
        = some g := by
      simpa [detect_genre_from_text] using h
    obtain ⟨q, hfind, hfst⟩ := Option.map_eq_some'.mp h'
    obtain ⟨g', n⟩ := q
    have hg : g' = g := hfst
    subst hg
    obtain ⟨l₁, l₂, hl, hpa, hall⟩ := find?_split _ _ _ hfind
    exact ⟨n, l₁, l₂, hl, hpa, hall⟩

/-- Whatever the oracle does, a successful detection is a key of
GENRE_MAP. -/
lemma detect_mem (hasKey : Bool) (llm : LLMOutcome) (g : String)
    (h : detect_genre_from_text hasKey llm = some g) :
    ∃ p, p ∈ GENRE_MAP ∧ p.1 = g := by
  cases llm with
  | raise => cases hasKey <;> simp [detect_genre_from_text] at h
  | reply raw =>
    obtain ⟨n, l₁, l₂, hl, -, -⟩ := detect_some_split hasKey raw g h
    exact ⟨(g, n), by rw [hl]; simp, rfl⟩

/-- The Bool range test of the scorer agrees with the rational value
being in the closed interval [1,10]. -/
lemma inRange_iff (d : DecNum) :
    inRange d = true ↔ 1 ≤ decValue d ∧ decValue d ≤ 10 := by
  have hpos : (0 : Rat) < (10 : Rat) ^ d.exp := by positivity
  unfold inRange decValue
  rw [Bool.and_eq_true, decide_eq_true_eq, decide_eq_true_eq]
  constructor
  · rintro ⟨h1, h2⟩
    constructor
    · rw [le_div_iff₀ hpos, one_mul]
      exact_mod_cast h1
    · rw [div_le_iff₀ hpos]
      calc (d.mant : Rat) ≤ ((10 ^ (d.exp + 1) : Nat) : Rat) := by exact_mod_cast h2
        _ = 10 * (10 : Rat) ^ d.exp := by push_cast [pow_succ]; ring
  · rintro ⟨h1, h2⟩
    constructor
    · rw [le_div_iff₀ hpos, one_mul] at h1
      exact_mod_cast h1
    · rw [div_le_iff₀ hpos] at h2
      have h3 : (d.mant : Rat) ≤ ((10 ^ (d.exp + 1) : Nat) : Rat) := by
        calc (d.mant : Rat) ≤ 10 * (10 : Rat) ^ d.exp := h2
          _ = ((10 ^ (d.exp + 1) : Nat) : Rat) := by push_cast [pow_succ]; ring
      exact_mod_cast h3

/-- Round-half-even of a ratio enclosed between integer multiples of
the denominator stays between those integers. -/
lemma rhe_bounds (a b lo hi : Nat) (hb : 0 < b) (hlo : lo * b ≤ a) (hhi : a ≤ hi * b) :
    lo ≤ rhe a b ∧ rhe a b ≤ hi := by
  have hmod := Nat.div_add_mod a b
  have hrlt : a % b < b := Nat.mod_lt _ hb
  have hqlo : lo ≤ a / b := (Nat.le_div_iff_mul_le hb).mpr hlo
  have hqhi : a / b ≤ hi := by
    have hdiv := Nat.div_le_div_right (c := b) hhi
    simpa [Nat.mul_div_cancel _ hb] using hdiv
  have hup : ¬2 * (a % b) < b → a / b + 1 ≤ hi := by
    intro h1
    rcases Nat.lt_or_ge (a / b) hi with hlt | hge
    · omega
    · exfalso
      have hq : a / b = hi := le_antisymm hqhi hge
      rw [hq] at hmod
      have hY : a ≤ b * hi := by rw [Nat.mul_comm]; exact hhi
      omega
  unfold rhe
  dsimp only
  split
  · exact ⟨hqlo, hqhi⟩
  · split
    · exact ⟨by omega, hup (by omega)⟩
    · split
      · exact ⟨hqlo, hqhi⟩
      · exact ⟨by omega, hup (by omega)⟩

/-- The Bool range test on a binary64 value agrees with its rational
value lying in the closed interval [1,10]. -/
lemma dyInRange_iff (v : Dyadic) :
    dyInRange v = true ↔ 1 ≤ dyValue v ∧ dyValue v ≤ 10 := by
  unfold dyInRange dyValue
  by_cases he : 0 ≤ v.e
  · rw [if_pos he]
    dsimp only
    rw [Bool.and_eq_true, decide_eq_true_eq, decide_eq_true_eq]
    have hpow : (2 : Rat) ^ v.e = ((2 ^ v.e.toNat : Nat) : Rat) := by
      conv_lhs => rw [← Int.toNat_of_nonneg he]
      rw [zpow_natCast]
      push_cast
      ring
    rw [hpow]
    constructor
    · rintro ⟨ha, hb⟩
      exact ⟨by exact_mod_cast ha, by exact_mod_cast hb⟩
    · rintro ⟨ha, hb⟩
      exact ⟨by exact_mod_cast ha, by exact_mod_cast hb⟩
  · rw [if_neg he]
    dsimp only
    rw [Bool.and_eq_true, decide_eq_true_eq, decide_eq_true_eq]
    have hP : (0 : Rat) < ((2 ^ (-v.e).toNat : Nat) : Rat) := by
      exact_mod_cast pow_pos (by norm_num : (0 : Nat) < 2) (-v.e).toNat
    have hpow : (2 : Rat) ^ v.e = (((2 ^ (-v.e).toNat : Nat) : Rat))⁻¹ := by
      have h1 : (2 : Rat) ^ v.e = ((2 : Rat) ^ (((-v.e).toNat : Nat) : Int))⁻¹ := by
        rw [← zpow_neg]
        congr 1
        omega
      rw [h1, zpow_natCast]
      push_cast
      ring
    rw [hpow, ← div_eq_mul_inv]
    constructor
    · rintro ⟨ha, hb⟩
      constructor
      · rw [le_div_iff₀ hP, one_mul]
        exact_mod_cast ha
      · rw [div_le_iff₀ hP]
        calc (v.m : Rat) ≤ ((v.m : Nat) : Rat) := by norm_num
          _ ≤ 10 * ((2 ^ (-v.e).toNat : Nat) : Rat) := by
            push_cast
            exact_mod_cast hb
    · rintro ⟨ha, hb⟩
      constructor
      · rw [le_div_iff₀ hP, one_mul] at ha
        exact_mod_cast ha
      · rw [div_le_iff₀ hP] at hb
        exact_mod_cast hb

/-- An in-range binary64 value has between 10 and 100 tenths after the
.1f rounding. -/
lemma dyTenths_bounds (v : Dyadic) (h : dyInRange v = true) :
    10 ≤ dyTenths v ∧ dyTenths v ≤ 100 := by
  unfold dyInRange at h
  unfold dyTenths
  by_cases he : 0 ≤ v.e
  · rw [if_pos he] at h ⊢
    dsimp only at h
    rw [Bool.and_eq_true, decide_eq_true_eq, decide_eq_true_eq] at h
    rw [Nat.mul_assoc]
    omega
  · rw [if_neg he] at h ⊢
    dsimp only at h
    rw [Bool.and_eq_true, decide_eq_true_eq, decide_eq_true_eq] at h
    have hP : 0 < 2 ^ (-v.e).toNat := pow_pos (by norm_num) _
    exact rhe_bounds (10 * v.m) (2 ^ (-v.e).toNat) 10 100 hP (by omega) (by omega)

/-- A whole number of tenths survives the half-even rounding intact. -/
lemma roundTenths_decimal (t : Nat) : roundTenths ⟨t, 1⟩ = t := by
  unfold roundTenths
  norm_num

/-- Formatting a tenths count through fmtScore or fmtTenths agrees. -/
lemma fmtScore_tenths (t : Nat) : fmtScore ⟨t, 1⟩ = fmtTenths t := by
  unfold fmtScore fmtTenths
  rw [roundTenths_decimal]

/-- The scorer reply handler returns "N/A" or the .1f formatting of an
in-range binary64 parse of the cleaned reply. -/
lemma score_reply_spec (raw : String) :
    score_reply raw = "N/A" ∨
      ∃ d, pyFloatOfCleaned (cleanDigits (pyStrip raw)) = some d ∧
        dyInRange (float64OfDec d) = true ∧
        score_reply raw = fmtTenths (dyTenths (float64OfDec d)) := by
  unfold score_reply
  dsimp only
  split
  · exact Or.inl rfl
  · split
    · rename_i d hd
      split
      · rename_i hr
        exact Or.inr ⟨d, hd, hr, rfl⟩
      · exact Or.inl rfl
    · exact Or.inl rfl

/-- The retry loop never returns more movies than requested. -/
lemma tmdbAux_length_le (num : Nat) (net : Nat → Nat → TMDBOutcome) (gid : Nat) :
    ∀ (r a : Nat), (tmdbAux num net gid a r).1.length ≤ num := by
  intro r
  induction r with
  | zero => intro a; simp [tmdbAux]
  | succ r ih =>
    intro a
    cases hnet : net gid a with
    | ok results =>
      simp [tmdbAux, hnet, List.length_map, List.length_take]
    | connectTimeout =>
      by_cases hr : r = 0
      · simp [tmdbAux, hnet, hr]
      · simpa [tmdbAux, hnet, hr] using ih (a + 1)
    | requestExn =>
      by_cases hr : r = 0
      · simp [tmdbAux, hnet, hr]
      · simpa [tmdbAux, hnet, hr] using ih (a + 1)
    | otherExn => simp [tmdbAux, hnet]

/-- One non-final timed-out attempt unfolds to the recursive call with
one more attempt counted and one more sleep recorded. -/
lemma tmdbAux_step_timeout (num : Nat) (net : Nat → Nat → TMDBOutcome) (gid a r : Nat)
    (h0 : net gid a = TMDBOutcome.connectTimeout) (hr : r ≠ 0) :
    tmdbAux num net gid a (r + 1) =
      ((tmdbAux num net gid (a + 1) r).1,
        (tmdbAux num net gid (a + 1) r).2.1 + 1,
        2 :: (tmdbAux num net gid (a + 1) r).2.2) := by
  conv_lhs => rw [tmdbAux]
  simp [h0, hr]

/-- When every attempt the loop can make times out, the loop makes all
of them, sleeping 2 between consecutive attempts, and returns the empty
list. -/
lemma tmdbAux_all_timeout (num : Nat) (net : Nat → Nat → TMDBOutcome) (gid : Nat) :
    ∀ (r a : Nat), (∀ i, i < r → net gid (a + i) = TMDBOutcome.connectTimeout) →
      tmdbAux num net gid a r = ([], r, List.replicate (r - 1) 2) := by
  intro r
  induction r with
  | zero => intro a _; simp [tmdbAux]
  | succ r ih =>
    intro a h
    have h0 : net gid a = TMDBOutcome.connectTimeout := by
      simpa using h 0 (Nat.succ_pos r)
    by_cases hr : r = 0
    · subst hr
      simp [tmdbAux, h0]
    · obtain ⟨r', rfl⟩ : ∃ r', r = r' + 1 := ⟨r - 1, by omega⟩
      have ht := ih (a + 1) (fun i hi => by
        have hx := h (i + 1) (by omega)
        simpa [show a + 1 + i = a + (i + 1) by omega] using hx)
      rw [tmdbAux_step_timeout num net gid a (r' + 1) h0 hr, ht]
      simp [List.replicate_succ]

/-- When the first N attempts time out and attempt N succeeds (inside
the retry budget), the loop returns the normalized, truncated movies of
the successful attempt after N+1 attempts and N sleeps. -/
lemma tmdbAux_success (num : Nat) (net : Nat → Nat → TMDBOutcome) (gid : Nat) :
    ∀ (N r a : Nat) (results : List RawMovie), N < r →
      (∀ i, i < N → net gid (a + i) = TMDBOutcome.connectTimeout) →
      net gid (a + N) = TMDBOutcome.ok results →
      tmdbAux num net gid a r =
        ((results.take num).map normalize, N + 1, List.replicate N 2) := by
  intro N
  induction N with
  | zero =>
    intro r a results hlt h hok
    obtain ⟨r', rfl⟩ : ∃ r', r = r' + 1 := ⟨r - 1, by omega⟩
    have hok0 : net gid a = TMDBOutcome.ok results := by simpa using hok
    simp [tmdbAux, hok0]
  | succ N ih =>
    intro r a results hlt h hok
    obtain ⟨r', rfl⟩ : ∃ r', r = r' + 1 := ⟨r - 1, by omega⟩
    have h0 : net gid a = TMDBOutcome.connectTimeout := by
      simpa using h 0 (Nat.succ_pos N)
    have hr' : ¬r' = 0 := by omega
    have ht := ih r' (a + 1) results (by omega)
      (fun i hi => by
        have hx := h (i + 1) (by omega)
        simpa [show a + 1 + i = a + (i + 1) by omega] using hx)
      (by simpa [show a + 1 + N = a + (N + 1) by omega] using hok)
    simp [tmdbAux, h0, hr', ht, List.replicate_succ]

/-- The list the loop returns is empty or the normalized truncation of
the results of some successful attempt inside the budget. -/
lemma tmdbAux_result_cases (num : Nat) (net : Nat → Nat → TMDBOutcome) (gid : Nat) :
    ∀ (r a : Nat), (tmdbAux num net gid a r).1 = [] ∨
      ∃ i results, a ≤ i ∧ i < a + r ∧ net gid i = TMDBOutcome.ok results ∧
        (tmdbAux num net gid a r).1 = (results.take num).map normalize := by
  intro r
  induction r with
  | zero => intro a; left; simp [tmdbAux]
  | succ r ih =>
    intro a
    cases hnet : net gid a with
    | ok results =>
      right
      exact ⟨a, results, le_refl a, by omega, hnet, by simp [tmdbAux, hnet]⟩
    | connectTimeout =>
      by_cases hr : r = 0
      · left; simp [tmdbAux, hnet, hr]
      · rcases ih (a + 1) with h | ⟨i, results, hai, hir, hok, heq⟩
        · left; simpa [tmdbAux, hnet, hr] using h
        · right
          exact ⟨i, results, by omega, by omega, hok, by simpa [tmdbAux, hnet, hr] using heq⟩
    | requestExn =>
      by_cases hr : r = 0
      · left; simp [tmdbAux, hnet, hr]
      · rcases ih (a + 1) with h | ⟨i, results, hai, hir, hok, heq⟩
        · left; simpa [tmdbAux, hnet, hr] using h
        · right
          exact ⟨i, results, by omega, by omega, hok, by simpa [tmdbAux, hnet, hr] using heq⟩
    | otherExn => left; simp [tmdbAux, hnet]

/-- The Score All Plots loop over an all-scored prefix changes nothing
and invokes the scorer zero times. -/
lemma score_all_aux_skip (hasKey : Bool) (genre : String) (llm : Nat → LLMOutcome) :
    ∀ (movies : List (String × String)) (k : Nat) (store : ScoreStore),
      (∀ i, i < movies.length → store (k + i) ≠ none) →
      score_all_aux hasKey genre llm movies k store = (store, 0, 0) := by
  intro movies
  induction movies with
  | nil => intro k store _; simp [score_all_aux]
  | cons m rest ih =>
    intro k store h
    obtain ⟨title, overview⟩ := m
    have h0 : store k ≠ none := by simpa using h 0 (by simp)
    obtain ⟨v, hv⟩ := Option.ne_none_iff_exists'.mp h0
    have ht := ih (k + 1) store (fun i hi => by
      have hx := h (i + 1) (by simpa using Nat.succ_lt_succ hi)
      simpa [show k + 1 + i = k + (i + 1) by omega] using hx)
    simp [score_all_aux, hv, ht]

/-! ### Claim theorems -/

/-- C1: for every genre and count, if every attempt times out then
get_tmdb_recommendations makes exactly retry_count network attempts
with a fixed 2-time-unit delay between consecutive attempts and
returns the empty sequence; if the first N attempts (N < retry_count)
time out and attempt N+1 succeeds, it returns the movies of the
successful attempt. -/
theorem C1_retry_policy (genre : String) (num retry N : Nat)
    (net : Nat → Nat → TMDBOutcome) (results : List RawMovie) :
    ((∀ i, i < retry → net (tmdb_genre_id genre) i = TMDBOutcome.connectTimeout) →
      get_tmdb_recommendations genre num retry net = ([], retry, List.replicate (retry - 1) 2))
    ∧ (N < retry →
      (∀ i, i < N → net (tmdb_genre_id genre) i = TMDBOutcome.connectTimeout) →
      net (tmdb_genre_id genre) N = TMDBOutcome.ok results →
      get_tmdb_recommendations genre num retry net =
        ((results.take num).map normalize, N + 1, List.replicate N 2)) := by
  constructor
  · intro h
    unfold get_tmdb_recommendations
    exact tmdbAux_all_timeout num net _ retry 0 (fun i hi => by simpa using h i hi)
  · intro hN h hok
    unfold get_tmdb_recommendations
    exact tmdbAux_success num net _ N retry 0 results hN
      (fun i hi => by simpa using h i hi) (by simpa using hok)

/-- C1 witness: three timeouts exhaust a 3-attempt budget with two
sleeps; two timeouts then a success return the fetched movie. -/
theorem C1_retry_policy_witness :
    get_tmdb_recommendations "action" 5 3 (fun _ _ => TMDBOutcome.connectTimeout)
      = ([], 3, List.replicate (3 - 1) 2)
    ∧ get_tmdb_recommendations "action" 5 3
        (fun _ i => if i < 2 then TMDBOutcome.connectTimeout
          else TMDBOutcome.ok [⟨some (Jv.str "T"), none, none, none, none, none⟩])
      = ((([⟨some (Jv.str "T"), none, none, none, none, none⟩] : List RawMovie).take 5).map normalize,
          2 + 1, List.replicate 2 2) := by
  constructor
  · exact (C1_retry_policy "action" 5 3 0 (fun _ _ => TMDBOutcome.connectTimeout) []).1
      (fun i _ => rfl)
  · exact (C1_retry_policy "action" 5 3 2
      (fun _ i => if i < 2 then TMDBOutcome.connectTimeout
        else TMDBOutcome.ok [⟨some (Jv.str "T"), none, none, none, none, none⟩])
      [⟨some (Jv.str "T"), none, none, none, none, none⟩]).2
      (by omega) (fun i hi => by simp [hi]) (by norm_num)

/-- C2 counterexample: with the API credential missing,
detect_genre_from_text returns None, not the default genre "drama" and
not any taxonomy member. -/
theorem C2_counterexample :
    detect_genre_from_text false (LLMOutcome.reply "comedy") = none
    ∧ ∀ g : String, detect_genre_from_text false (LLMOutcome.reply "comedy") ≠ some g := by
  refine ⟨rfl, fun g h => ?_⟩
  simp [detect_genre_from_text] at h

/-- C2 (amended): detect_genre_from_text returns None, never "drama",
on missing credential, network failure or unmatched reply; the tab2
caller maps None to the default "drama", so the genre it selects is
always a member of the taxonomy and is "drama" on every failure mode:
when the credential is missing, when the call raises, and when the
reply (empty or invalid) matches no taxonomy member — the latter
because such a reply makes detect_genre_from_text return None and
every None is resolved to "drama".  detect_genre_from_text itself only
ever returns None or a taxonomy member. -/
theorem C2_amended_resolver (hasKey : Bool) (req raw : String) (llm : LLMOutcome) :
    (∃ p, p ∈ GENRE_MAP ∧ tab2_selected_genre hasKey req llm = p.1)
    ∧ tab2_selected_genre false req llm = "drama"
    ∧ tab2_selected_genre hasKey req LLMOutcome.raise = "drama"
    ∧ ((∀ p ∈ GENRE_MAP, strHas (pyLower (pyStrip raw)) p.1 = false) →
        detect_genre_from_text hasKey (LLMOutcome.reply raw) = none)
    ∧ (detect_genre_from_text hasKey llm = none →
        tab2_selected_genre hasKey req llm = "drama")
    ∧ (detect_genre_from_text hasKey llm = none ∨
        ∃ p, p ∈ GENRE_MAP ∧ detect_genre_from_text hasKey llm = some p.1) := by
  refine ⟨?_, ?_, ?_, ?_, ?_, ?_⟩
  · by_cases hreq : req = ""
    · exact ⟨("drama", 18), by decide, by simp [tab2_selected_genre, hreq]⟩
    · cases hd : detect_genre_from_text hasKey llm with
      | none => exact ⟨("drama", 18), by decide, by simp [tab2_selected_genre, hreq, hd]⟩
      | some g =>
        by_cases hg : g = ""
        · exact ⟨("drama", 18), by decide, by simp [tab2_selected_genre, hreq, hd, hg]⟩
        · obtain ⟨p, hp, hfst⟩ := detect_mem hasKey llm g hd
          exact ⟨p, hp, by simp [tab2_selected_genre, hreq, hd, hg, hfst]⟩
  · by_cases hreq : req = "" <;>
      simp [tab2_selected_genre, detect_genre_from_text, hreq]
  · by_cases hreq : req = "" <;> cases hasKey <;>
      simp [tab2_selected_genre, detect_genre_from_text, hreq]
  · intro hno
    cases hasKey with
    | false => simp [detect_genre_from_text]
    | true =>
      have hnone : GENRE_MAP.find? (fun p => strHas (pyLower (pyStrip raw)) p.1) = none :=
        List.find?_eq_none.mpr (fun x hx => by simp [hno x hx])
      simp [detect_genre_from_text, hnone]
  · intro hd
    by_cases hreq : req = ""
    · simp [tab2_selected_genre, hreq]
    · simp [tab2_selected_genre, hreq, hd]
  · cases hd : detect_genre_from_text hasKey llm with
    | none => exact Or.inl rfl
    | some g =>
      obtain ⟨p, hp, hfst⟩ := detect_mem hasKey llm g hd
      exact Or.inr ⟨p, hp, by rw [hfst]⟩

/-- C2 witness: a reply matching no taxonomy member is detected as
None and the tab2 handling resolves it to the default "drama". -/
theorem C2_amended_resolver_witness :
    detect_genre_from_text true (LLMOutcome.reply "I cannot tell") = none
    ∧ tab2_selected_genre true "show me something good" (LLMOutcome.reply "I cannot tell")
        = "drama" := by
  have h := C2_amended_resolver true "show me something good" "I cannot tell"
    (LLMOutcome.reply "I cannot tell")
  have hd := h.2.2.2.1 (by decide)
  exact ⟨hd, h.2.2.2.2.1 hd⟩

/-- C3: score_plot_coherence reply handling strips all characters other
than digits and dots, returns a formatted score only when the cleaned
string parses as a Python float lying in [1,10] (then formatted to one
decimal with the "/10" suffix), and returns the unavailable sentinel
otherwise; reply "7.5" yields "7.5/10", "15" yields "N/A", "<|eot|>8"
yields "8.0/10", and the binary64 float semantics is exact: "1.15"
yields "1.1/10", "2.45" yields "2.5/10" and "0.99999999999999999"
rounds up to the double 1.0 and yields "1.0/10". -/
theorem C3_score_validation :
    score_reply "7.5" = "7.5/10"
    ∧ score_reply "15" = "N/A"
    ∧ score_reply "<|eot|>8" = "8.0/10"
    ∧ score_reply "1.15" = "1.1/10"
    ∧ score_reply "2.45" = "2.5/10"
    ∧ score_reply "0.99999999999999999" = "1.0/10"
    ∧ (∀ raw : String, ∀ c ∈ (cleanDigits raw).toList, c.isDigit ∨ c = '.')
    ∧ (∀ raw : String, score_reply raw = "N/A" ∨
        ∃ d, pyFloatOfCleaned (cleanDigits (pyStrip raw)) = some d ∧
          1 ≤ dyValue (float64OfDec d) ∧ dyValue (float64OfDec d) ≤ 10 ∧
          score_reply raw = fmtTenths (dyTenths (float64OfDec d))) := by
  refine ⟨by decide, by decide, by decide, by decide, by decide, by decide, ?_, ?_⟩
  · intro raw c hc
    have hc' : c ∈ raw.toList.filter isDigitOrDot := hc
    have hdd := (List.mem_filter.mp hc').2
    unfold isDigitOrDot at hdd
    have hdd' : c.isDigit = true ∨ (c == '.') = true := by simpa using hdd
    rcases hdd' with h | h
    · exact Or.inl h
    · exact Or.inr (eq_of_beq h)
  · intro raw
    rcases score_reply_spec raw with h | ⟨d, hd, hr, hf⟩
    · exact Or.inl h
    · exact Or.inr ⟨d, hd, ((dyInRange_iff _).mp hr).1, ((dyInRange_iff _).mp hr).2, hf⟩

/-- C3 witness: the characterization applied to the concrete reply
"7.5" and one of its cleaned characters. -/
theorem C3_score_validation_witness :
    score_reply "7.5" = "7.5/10" ∧ ('5'.isDigit ∨ '5' = '.') :=
  ⟨C3_score_validation.1, C3_score_validation.2.2.2.2.2.2.1 "7.5" '5' (by decide)⟩

/-- C4: with no LLM credential, or an empty plot, or the sentinel
plot "No summary available.", score_plot_coherence returns "N/A"
immediately with zero network calls. -/
theorem C4_short_circuit (hasKey : Bool) (movie_title plot genre : String) (llm : LLMOutcome)
    (h : hasKey = false ∨ plot = "" ∨ plot = "No summary available.") :
    score_plot_coherence hasKey movie_title plot genre llm = ("N/A", 0) := by
  unfold score_plot_coherence
  rcases h with h | h | h <;> subst h <;> simp

/-- C4 witness: an empty plot short-circuits even with the credential
present and a numeric reply available. -/
theorem C4_short_circuit_witness :
    score_plot_coherence true "Inception" "" "action" (LLMOutcome.reply "8") = ("N/A", 0) :=
  C4_short_circuit true "Inception" "" "action" (LLMOutcome.reply "8") (Or.inr (Or.inl rfl))

/-- C5: the Catalog Client returns at most the requested number of
movies for every genre string, count and network behavior, and an
unknown or empty genre string resolves to the default provider code 18
(drama) instead of failing. -/
theorem C5_bounded_and_fallback (genre : String) (num retry : Nat)
    (net : Nat → Nat → TMDBOutcome) :
    (get_tmdb_recommendations genre num retry net).1.length ≤ num
    ∧ (∀ g : String, (∀ p ∈ GENRE_MAP, p.1 ≠ pyLower g) → tmdb_genre_id g = 18)
    ∧ tmdb_genre_id "" = 18 := by
  refine ⟨tmdbAux_length_le num net _ retry 0, ?_, by decide⟩
  intro g hg
  unfold tmdb_genre_id
  cases hf : GENRE_MAP.find? (fun p => p.1 == pyLower g) with
  | none => rfl
  | some p =>
    have hp := List.find?_some hf
    have hmem := List.mem_of_find?_eq_some hf
    exact absurd (eq_of_beq hp) (hg p hmem)

/-- C5 witness: an unknown genre with a failing network yields a list
of at most the requested length and the drama fallback code. -/
theorem C5_bounded_and_fallback_witness :
    (get_tmdb_recommendations "zzz" 4 3 (fun _ _ => TMDBOutcome.otherExn)).1.length ≤ 4
    ∧ tmdb_genre_id "zzz" = 18 :=
  ⟨(C5_bounded_and_fallback "zzz" 4 3 (fun _ _ => TMDBOutcome.otherExn)).1,
    (C5_bounded_and_fallback "zzz" 4 3 (fun _ _ => TMDBOutcome.otherExn)).2.1 "zzz" (by decide)⟩

/-- C6: totality of the leaf components over every oracle behavior:
detect_genre_from_text returns None or a taxonomy member (and None when
the call raises), score_plot_coherence returns "N/A" or a formatted
in-range score (and "N/A" when the call raises), and
get_tmdb_recommendations returns the empty list or the normalized
truncated results of a successful attempt inside the retry budget — no
network or parsing exception ever escapes any of them. -/
theorem C6_totality (hasKey : Bool) (movie_title plot genre : String) (llm : LLMOutcome)
    (num retry : Nat) (net : Nat → Nat → TMDBOutcome) :
    (detect_genre_from_text hasKey llm = none ∨
      ∃ p, p ∈ GENRE_MAP ∧ detect_genre_from_text hasKey llm = some p.1)
    ∧ detect_genre_from_text hasKey LLMOutcome.raise = none
    ∧ ((score_plot_coherence hasKey movie_title plot genre llm).1 = "N/A" ∨
        ∃ d, 1 ≤ decValue d ∧ decValue d ≤ 10 ∧
          (score_plot_coherence hasKey movie_title plot genre llm).1 = fmtScore d)
    ∧ (score_plot_coherence hasKey movie_title plot genre LLMOutcome.raise).1 = "N/A"
    ∧ ((get_tmdb_recommendations genre num retry net).1 = [] ∨
        ∃ i results, i < retry ∧ net (tmdb_genre_id genre) i = TMDBOutcome.ok results ∧
          (get_tmdb_recommendations genre num retry net).1 = (results.take num).map normalize) := by
  refine ⟨?_, ?_, ?_, ?_, ?_⟩
  · cases hd : detect_genre_from_text hasKey llm with
    | none => exact Or.inl rfl
    | some g =>
      obtain ⟨p, hp, hfst⟩ := detect_mem hasKey llm g hd
      exact Or.inr ⟨p, hp, by rw [hfst]⟩
  · cases hasKey <;> simp [detect_genre_from_text]
  · unfold score_plot_coherence
    split
    · exact Or.inl rfl
    · cases llm with
      | raise => exact Or.inl rfl
      | reply raw =>
        rcases score_reply_spec raw with h | ⟨d, -, hr, hf⟩
        · exact Or.inl h
        · obtain ⟨h10, h100⟩ := dyTenths_bounds _ hr
          refine Or.inr ⟨⟨dyTenths (float64OfDec d), 1⟩, ?_, ?_, ?_⟩
          · exact ((inRange_iff ⟨dyTenths (float64OfDec d), 1⟩).mp
              (by simp [inRange]; omega)).1
          · exact ((inRange_iff ⟨dyTenths (float64OfDec d), 1⟩).mp
              (by simp [inRange]; omega)).2
          · show score_reply raw = _
            rw [hf, fmtScore_tenths]
  · unfold score_plot_coherence
    split
    · rfl
    · rfl
  · rcases tmdbAux_result_cases num net (tmdb_genre_id genre) retry 0 with h |
      ⟨i, results, -, hir, hok, heq⟩
    · exact Or.inl h
    · exact Or.inr ⟨i, results, by omega, hok, heq⟩

/-- C7 counterexample: clicking the per-movie Get AI Score button for a
movie that already holds the score "8.0/10" invokes the scorer again
(one invocation, one network call) and overwrites the stored score —
it is not a no-op. -/
theorem C7_counterexample :
    (per_movie_click true "drama" "Title" "Plot" (LLMOutcome.reply "7")
      (fun j => if j = 1 then some "8.0/10" else none) 1).2 = (1, 1)
    ∧ (per_movie_click true "drama" "Title" "Plot" (LLMOutcome.reply "7")
      (fun j => if j = 1 then some "8.0/10" else none) 1).1 1 = some "7.0/10" := by
  exact ⟨by decide, by decide⟩

/-- C7 (amended): the batch Score All Plots loop is idempotent — when
every movie already holds a score it changes nothing, invokes the
scorer zero times and makes zero network calls — but the per-movie
button always invokes score_plot_coherence exactly once, even for an
already-scored movie. -/
theorem C7_amended_idempotence (hasKey : Bool) (genre : String) (llm : Nat → LLMOutcome)
    (movies : List (String × String)) (store : ScoreStore)
    (h : ∀ i, i < movies.length → store (1 + i) ≠ none) :
    score_all_click hasKey genre llm movies store = (store, 0, 0)
    ∧ ∀ (title plot : String) (l2 : LLMOutcome) (idx : Nat),
        (per_movie_click hasKey genre title plot l2 store idx).2.1 = 1 :=
  ⟨score_all_aux_skip hasKey genre llm movies 1 store h, fun _ _ _ _ => rfl⟩

/-- C7 witness: batch scoring over two already-scored movies is the
identity with zero invocations. -/
theorem C7_amended_idempotence_witness :
    score_all_click true "comedy" (fun _ => LLMOutcome.reply "7")
      [("A", "pa"), ("B", "pb")]
      (fun j => if j = 1 then some "8.0/10" else if j = 2 then some "9.0/10" else none)
      = ((fun j => if j = 1 then some "8.0/10" else if j = 2 then some "9.0/10" else none),
          0, 0) :=
  (C7_amended_idempotence true "comedy" (fun _ => LLMOutcome.reply "7")
    [("A", "pa"), ("B", "pb")]
    (fun j => if j = 1 then some "8.0/10" else if j = 2 then some "9.0/10" else none)
    (by decide)).1

/-- C8 (code bug): submitting a new Recommend Movies request does not
clear the stored score_idx keys, so a CoherenceScore computed for the
previous movie list is still displayed at the same position against
the new list; only the Try Another Search reset clears them. -/
theorem C8_stale_scores_bug :
    displayed_score
      (recommend_click
        (set_score (recommend_click ⟨false, "drama", 8, fun _ => none⟩ "action" 8)
          1 "8.0/10")
        "comedy" 8)
      1 = some "8.0/10"
    ∧ displayed_score
        (try_another_click
          (set_score (recommend_click ⟨false, "drama", 8, fun _ => none⟩ "action" 8)
            1 "8.0/10"))
        1 = none :=
  ⟨rfl, rfl⟩

/-- C9: a successful detection is resolved by first-match order over
GENRE_MAP — the detected genre is a key of GENRE_MAP occurring as a
substring of the lowercased stripped reply, and every key placed
before it in insertion order does not occur, so a reply containing
several genre names yields the earliest key. -/
theorem C9_first_match_order (content g : String)
    (h : detect_genre_from_text true (LLMOutcome.reply content) = some g) :
    ∃ n l₁ l₂, GENRE_MAP = l₁ ++ (g, n) :: l₂ ∧
      strHas (pyLower (pyStrip content)) g = true ∧
      ∀ p ∈ l₁, strHas (pyLower (pyStrip content)) p.1 = false :=
  detect_some_split true content g h

/-- C9 witness: "a drama full of action" contains both "drama" and
"action"; the detected genre is "action", the earlier key. -/
theorem C9_first_match_order_witness :
    ∃ n l₁ l₂, GENRE_MAP = l₁ ++ ("action", n) :: l₂ ∧
      strHas (pyLower (pyStrip "a drama full of action")) "action" = true ∧
      ∀ p ∈ l₁, strHas (pyLower (pyStrip "a drama full of action")) p.1 = false :=
  C9_first_match_order "a drama full of action" "action" (by decide)

/-- C10 counterexample: a poster_path key present with the empty-string
fragment is falsy in Python, so the record gets no poster URL rather
than the CDN prefix applied to the empty fragment, refuting the claim
that every present fragment is prefixed. -/
theorem C10_counterexample :
    (normalize ⟨none, none, none, none, some (Jv.str ""), none⟩).poster_path = none
    ∧ (normalize ⟨none, none, none, none, some (Jv.str ""), none⟩).poster_path
        ≠ some ("https://image.tmdb.org/t/p/w500" ++ "") := by
  exact ⟨by decide, by decide⟩

/-- C10 (amended): at the catalog boundary a missing popularity becomes
the number 0, missing title/overview/release_date/vote_average
propagate as null, a missing poster_path becomes no poster URL, and a
present non-empty string fragment is prefixed with the fixed CDN base
(an empty fragment is falsy and also becomes no poster URL). -/
theorem C10_defaulting (m : RawMovie) :
    (m.popularity = none → (normalize m).popularity = Jv.num 0)
    ∧ (m.title = none → (normalize m).title = Jv.null)
    ∧ (m.overview = none → (normalize m).overview = Jv.null)
    ∧ (m.release_date = none → (normalize m).release_date = Jv.null)
    ∧ (m.vote_average = none → (normalize m).vote_average = Jv.null)
    ∧ (m.poster_path = none → (normalize m).poster_path = none)
    ∧ (∀ s : String, ¬s = "" → m.poster_path = some (Jv.str s) →
        (normalize m).poster_path = some ("https://image.tmdb.org/t/p/w500" ++ s)) := by
  refine ⟨?_, ?_, ?_, ?_, ?_, ?_, ?_⟩
  · intro h; simp [normalize, pyGetD0, h]
  · intro h; simp [normalize, pyGet, h]
  · intro h; simp [normalize, pyGet, h]
  · intro h; simp [normalize, pyGet, h]
  · intro h; simp [normalize, pyGet, h]
  · intro h; simp [normalize, pyGet, truthy, h]
  · intro s hs hp; simp [normalize, pyGet, truthy, jvStr, hp, hs]

/-- C10 witness: the defaulting rules applied to a raw movie with only
a non-empty poster fragment, and to a raw movie with no fields. -/
theorem C10_defaulting_witness :
    (normalize ⟨none, none, none, none, some (Jv.str "/x.jpg"), none⟩).popularity = Jv.num 0
    ∧ (normalize ⟨none, none, none, none, some (Jv.str "/x.jpg"), none⟩).poster_path
        = some ("https://image.tmdb.org/t/p/w500" ++ "/x.jpg")
    ∧ (normalize ⟨none, none, none, none, none, none⟩).poster_path = none :=
  ⟨(C10_defaulting ⟨none, none, none, none, some (Jv.str "/x.jpg"), none⟩).1 rfl,
    (C10_defaulting ⟨none, none, none, none, some (Jv.str "/x.jpg"), none⟩).2.2.2.2.2.2
      "/x.jpg" (by decide) rfl,
    (C10_defaulting ⟨none, none, none, none, none, none⟩).2.2.2.2.2.1 rfl⟩

end MovieApp
